import Mathlib

/-!
Verification development for the CoinstoreMM repository.

The repository's core is a request signer (`computeSignHeaders` in
src/src/index.ts and `createSignedHeaders` in src/js/lasttrade.js): a
two-round HMAC-SHA256 scheme keyed first by the API secret over a
30-second time bucket, then by the hex text of that first digest over
the concatenation of query string and body.

We embed the signer shallowly: Node's `crypto.createHmac('sha256', k)`
with a string key uses the UTF-8 bytes of the string; byte strings are
`List Nat` with every byte < 256; `Date.now()` becomes an explicit
`nowMillis : Nat` parameter (the spec's `computeSignedHeaders` signature);
the process-global `API_KEY`/`API_SECRET` become explicit parameters.
SHA-256 itself is implemented in full (FIPS 180-4) so that concrete
signatures can be evaluated inside proofs.
-/

set_option maxRecDepth 100000
set_option maxHeartbeats 4000000

deriving instance DecidableEq for Except

namespace CoinstoreMM

/-- Truncate to a 32-bit word. -/
def w32 (n : Nat) : Nat := n % 4294967296

/-- Right rotation of a 32-bit word by `k` (0 < k < 32). -/
def rotr (k w : Nat) : Nat := w32 (w / 2 ^ k + w % 2 ^ k * 2 ^ (32 - k))

/-- Bitwise complement within 32 bits. -/
def not32 (w : Nat) : Nat := 4294967295 - w % 4294967296

/-- SHA-256 choice function. -/
def ch (e f g : Nat) : Nat := Nat.xor (Nat.land e f) (Nat.land (not32 e) g)

/-- SHA-256 majority function. -/
def maj (a b c : Nat) : Nat :=
  Nat.xor (Nat.xor (Nat.land a b) (Nat.land a c)) (Nat.land b c)

/-- SHA-256 big sigma 0. -/
def bigS0 (a : Nat) : Nat := Nat.xor (Nat.xor (rotr 2 a) (rotr 13 a)) (rotr 22 a)

/-- SHA-256 big sigma 1. -/
def bigS1 (e : Nat) : Nat := Nat.xor (Nat.xor (rotr 6 e) (rotr 11 e)) (rotr 25 e)

/-- SHA-256 small sigma 0. -/
def smallS0 (x : Nat) : Nat := Nat.xor (Nat.xor (rotr 7 x) (rotr 18 x)) (x / 2 ^ 3)

/-- SHA-256 small sigma 1. -/
def smallS1 (x : Nat) : Nat := Nat.xor (Nat.xor (rotr 17 x) (rotr 19 x)) (x / 2 ^ 10)

/-- The 64 SHA-256 round constants (FIPS 180-4, here in decimal). -/
def K : List Nat :=
  [1116352408, 1899447441, 3049323471, 3921009573, 961987163, 1508970993,
   2453635748, 2870763221, 3624381080, 310598401, 607225278, 1426881987,
   1925078388, 2162078206, 2614888103, 3248222580, 3835390401, 4022224774,
   264347078, 604807628, 770255983, 1249150122, 1555081692, 1996064986,
   2554220882, 2821834349, 2952996808, 3210313671, 3336571891, 3584528711,
   113926993, 338241895, 666307205, 773529912, 1294757372, 1396182291,
   1695183700, 1986661051, 2177026350, 2456956037, 2730485921, 2820302411,
   3259730800, 3345764771, 3516065817, 3600352804, 4094571909, 275423344,
   430227734, 506948616, 659060556, 883997877, 958139571, 1322822218,
   1537002063, 1747873779, 1955562222, 2024104815, 2227730452, 2361852424,
   2428436474, 2756734187, 3204031479, 3329325298]

/-- Working state of the compression function: eight 32-bit words. -/
structure Hash8 where
  a : Nat
  b : Nat
  c : Nat
  d : Nat
  e : Nat
  f : Nat
  g : Nat
  h : Nat
deriving DecidableEq

/-- Initial SHA-256 hash value (FIPS 180-4, here in decimal). -/
def H0 : Hash8 :=
  ⟨1779033703, 3144134277, 1013904242, 2773480762,
   1359893119, 2600822924, 528734635, 1541459225⟩

/-- Append the next message-schedule word to a schedule prefix. -/
def wstep (l : List Nat) : List Nat :=
  l ++ [w32 (smallS1 (l.getD (l.length - 2) 0) + l.getD (l.length - 7) 0 +
             smallS0 (l.getD (l.length - 15) 0) + l.getD (l.length - 16) 0)]

/-- Iterate `wstep` the given number of times. -/
def sched : Nat → List Nat → List Nat
  | 0, l => l
  | n + 1, l => sched n (wstep l)

/-- One SHA-256 round with round constant `kt` and schedule word `wt`. -/
def round (s : Hash8) (kt wt : Nat) : Hash8 :=
  let t1 := w32 (s.h + bigS1 s.e + ch s.e s.f s.g + kt + wt)
  let t2 := w32 (bigS0 s.a + maj s.a s.b s.c)
  ⟨w32 (t1 + t2), s.a, s.b, s.c, w32 (s.d + t1), s.e, s.f, s.g⟩

/-- Compress one 16-word block into the running hash value. -/
def compress (hv : Hash8) (block : List Nat) : Hash8 :=
  let w := sched 48 block
  let s := (K.zip w).foldl (fun st p => round st p.1 p.2) hv
  ⟨w32 (hv.a + s.a), w32 (hv.b + s.b), w32 (hv.c + s.c), w32 (hv.d + s.d),
   w32 (hv.e + s.e), w32 (hv.f + s.f), w32 (hv.g + s.g), w32 (hv.h + s.h)⟩

/-- Big-endian 8-byte encoding of a natural number. -/
def be64 (n : Nat) : List Nat :=
  [n / 2 ^ 56 % 256, n / 2 ^ 48 % 256, n / 2 ^ 40 % 256, n / 2 ^ 32 % 256,
   n / 2 ^ 24 % 256, n / 2 ^ 16 % 256, n / 2 ^ 8 % 256, n % 256]

/-- Big-endian 4-byte encoding of a 32-bit word. -/
def be32 (n : Nat) : List Nat :=
  [n / 2 ^ 24 % 256, n / 2 ^ 16 % 256, n / 2 ^ 8 % 256, n % 256]

/-- SHA-256 padding: append 0x80, zero bytes, and the 64-bit bit length. -/
def padMsg (msg : List Nat) : List Nat :=
  let z := (64 - (msg.length + 9) % 64) % 64
  msg ++ 128 :: List.replicate z 0 ++ be64 (8 * msg.length)

/-- Group bytes into big-endian 32-bit words (length a multiple of 4). -/
def chunk4 : List Nat → List Nat
  | b0 :: b1 :: b2 :: b3 :: rest =>
      (b0 * 16777216 + b1 * 65536 + b2 * 256 + b3) :: chunk4 rest
  | _ => []

/-- Group a word list into 16-word blocks; `fuel` bounds the recursion and
any value of at least the list length is enough. -/
def chunk16F : Nat → List Nat → List (List Nat)
  | 0, _ => []
  | _ + 1, [] => []
  | fuel + 1, a :: l => (a :: l.take 15) :: chunk16F fuel (l.drop 15)

/-- Group a word list into 16-word blocks. -/
def chunk16 (l : List Nat) : List (List Nat) := chunk16F l.length l

/-- Serialize the final hash value as 32 big-endian bytes. -/
def digestBytes (hv : Hash8) : List Nat :=
  be32 hv.a ++ be32 hv.b ++ be32 hv.c ++ be32 hv.d ++
  be32 hv.e ++ be32 hv.f ++ be32 hv.g ++ be32 hv.h

/-- SHA-256 of a byte string, as 32 bytes. -/
def sha256 (msg : List Nat) : List Nat :=
  digestBytes ((chunk16 (chunk4 (padMsg msg))).foldl compress H0)

/-- HMAC-SHA256 (RFC 2104) of a message under a key, both byte strings,
as the 32 digest bytes. Keys longer than the 64-byte block are first
hashed; the key is then zero-padded to 64 bytes. -/
def hmacSha256 (key msg : List Nat) : List Nat :=
  let k0 := if 64 < key.length then sha256 key else key
  let kp := k0 ++ List.replicate (64 - k0.length) 0
  sha256 (kp.map (fun b => Nat.xor b 92) ++
    sha256 (kp.map (fun b => Nat.xor b 54) ++ msg))

/-- Lowercase hexadecimal digit characters. -/
def hexChar (d : Nat) : Char := "0123456789abcdef".toList.getD d '0'

/-- Lowercase hex rendering of a byte string, as Node's digest output. -/
def bytesToHex (bs : List Nat) : String :=
  String.mk (bs.foldr (fun b acc => hexChar (b / 16 % 16) :: hexChar (b % 16) :: acc) [])

/-- UTF-8 encoding of one character. -/
def utf8Enc (c : Char) : List Nat :=
  let n := c.toNat
  if n < 128 then [n]
  else if n < 2048 then [192 + n / 64, 128 + n % 64]
  else if n < 65536 then [224 + n / 4096, 128 + n / 64 % 64, 128 + n % 64]
  else [240 + n / 262144, 128 + n / 4096 % 64, 128 + n / 64 % 64, 128 + n % 64]

/-- UTF-8 bytes of a string: what Node's `hmac.update(str)` and
`createHmac('sha256', str)` feed to the hash. -/
def strBytes (s : String) : List Nat :=
  s.data.foldr (fun c acc => utf8Enc c ++ acc) []

/-- Little-endian decimal digits of a positive number; `fuel` bounds the
recursion, any value of at least `n` is enough. -/
def decDigitsRevF : Nat → Nat → List Nat
  | 0, _ => []
  | _ + 1, 0 => []
  | fuel + 1, n + 1 => (n + 1) % 10 :: decDigitsRevF fuel ((n + 1) / 10)

/-- Decimal digit character. -/
def decChar (d : Nat) : Char := "0123456789".toList.getD d '0'

/-- Decimal string of a natural number: the embedding of JavaScript
`Number.prototype.toString` and `String(n)` for nonnegative integers. -/
def natToDec (n : Nat) : String :=
  if n = 0 then "0" else String.mk (((decDigitsRevF n n).reverse).map decChar)

/-- Signed header set, fields in the order the source objects list them:
X-CS-APIKEY, X-CS-EXPIRES, X-CS-SIGN, Content-Type. -/
structure SignHeaders where
  apikey : String
  expires : String
  sign : String
  contentType : String
deriving DecidableEq

/-- The 30-second time bucket, rendered in decimal:
Math.floor(expires / 30000).toString(). -/
def timeBucketOf (nowMillis : Nat) : String := natToDec (nowMillis / 30000)

/-- First HMAC round: hex digest keyed by the API secret over the time
bucket string (src/src/index.ts lines 48-50, src/js/lasttrade.js 73-75). -/
def derivedKeyOf (apiSecret : String) (nowMillis : Nat) : String :=
  bytesToHex (hmacSha256 (strBytes apiSecret) (strBytes (timeBucketOf nowMillis)))

/-- The signed payload: direct concatenation of query string and body,
no separator (src/src/index.ts line 53, src/js/lasttrade.js line 78). -/
def payloadOf (queryString body : String) : String := queryString ++ body

/-- Second HMAC round: hex digest keyed by the UTF-8 bytes of the derived
key's hex text (Node passes the hex string itself as the key) over the
payload (src/src/index.ts lines 54-56, src/js/lasttrade.js 81-83). -/
def signOf (apiSecret : String) (nowMillis : Nat) (queryString body : String) : String :=
  bytesToHex (hmacSha256 (strBytes (derivedKeyOf apiSecret nowMillis))
    (strBytes (payloadOf queryString body)))

/-- The signer of src/src/index.ts (computeSignHeaders, lines 40-64).
The process globals API_KEY and API_SECRET are explicit parameters and
Date.now() is the explicit `nowMillis`, per the spec's signature
computeSignedHeaders(credentials, signRequest, nowMillis). The guard
`if (!API_KEY || !API_SECRET) throw` becomes the error branch; `method`
is accepted and, as in the source, never used. -/
def computeSignHeaders (apiKey apiSecret : String) (nowMillis : Nat)
    (method queryString body : String) : Except String SignHeaders :=
  if apiKey = "" ∨ apiSecret = "" then
    Except.error "Missing CS_API_KEY/CS_API_SECRET"
  else
    Except.ok ⟨apiKey, natToDec nowMillis, signOf apiSecret nowMillis queryString body,
      "application/json"⟩

/-- The signer of src/js/lasttrade.js (createSignedHeaders, lines 65-93):
same computation, no credential guard and no method parameter. -/
def createSignedHeaders (apiKey apiSecret : String) (nowMillis : Nat)
    (queryString body : String) : SignHeaders :=
  ⟨apiKey, natToDec nowMillis, signOf apiSecret nowMillis queryString body,
   "application/json"⟩

/-- The signing call made by getBalances in src/src/index.ts line 90:
computeSignHeaders with method GET, empty query string and empty body. -/
def getBalancesSignIndex (apiKey apiSecret : String) (nowMillis : Nat) :
    Except String SignHeaders :=
  computeSignHeaders apiKey apiSecret nowMillis "GET" "" ""

/-- The body string getBalances in src/js/lasttrade.js line 120 passes to
the signer: JSON.stringify of the empty object, the two characters
open-brace close-brace. -/
def getBalancesBodyLasttrade : String := "\x7b\x7d"

/-- The signing call made by getBalances in src/js/lasttrade.js line 122:
createSignedHeaders with empty query string and the stringified empty
object as body. -/
def getBalancesSignLasttrade (apiKey apiSecret : String) (nowMillis : Nat) :
    SignHeaders :=
  createSignedHeaders apiKey apiSecret nowMillis "" getBalancesBodyLasttrade

/-- Value of a little-endian digit list. -/
def evalRev : List Nat → Nat
  | [] => 0
  | d :: ds => d + 10 * evalRev ds

/-- Big-endian decimal evaluation of a string, a left inverse of
`natToDec` on its image. -/
def decStrVal (s : String) : Nat :=
  s.data.foldl (fun acc c => acc * 10 + (c.toNat - 48)) 0

/-! Helper lemmas: the decimal rendering is injective (distinct timestamps
give distinct expires headers). -/

theorem decDigitsRevF_eval : ∀ fuel n, n ≤ fuel → evalRev (decDigitsRevF fuel n) = n := by
  intro fuel
  induction fuel with
  | zero => intro n hn; interval_cases n; rfl
  | succ f ih =>
    intro n hn
    match n with
    | 0 => rfl
    | m + 1 =>
      have hdiv : (m + 1) / 10 < m + 1 := Nat.div_lt_self (Nat.succ_pos m) (by omega)
      have : evalRev (decDigitsRevF f ((m + 1) / 10)) = (m + 1) / 10 :=
        ih _ (by omega)
      simp only [decDigitsRevF, evalRev, this]
      omega

theorem decDigitsRevF_lt10 : ∀ fuel n d, d ∈ decDigitsRevF fuel n → d < 10 := by
  intro fuel
  induction fuel with
  | zero => intro n d hd; simp [decDigitsRevF] at hd
  | succ f ih =>
    intro n d hd
    match n with
    | 0 => simp [decDigitsRevF] at hd
    | m + 1 =>
      simp only [decDigitsRevF, List.mem_cons] at hd
      rcases hd with h | h
      · omega
      · exact ih _ _ h

theorem decStrVal_aux : ∀ (ds : List Nat) (acc : Nat), (∀ d ∈ ds, d < 10) →
    (ds.reverse.map decChar).foldl (fun a c => a * 10 + (c.toNat - 48)) acc =
      acc * 10 ^ ds.length + evalRev ds := by
  intro ds
  induction ds with
  | nil => intro acc _; simp [evalRev]
  | cons d t ih =>
    intro acc hlt
    have hd : d < 10 := hlt d (List.mem_cons_self d t)
    have hchar : (decChar d).toNat = 48 + d := by
      interval_cases d <;> rfl
    simp only [List.reverse_cons, List.map_append, List.foldl_append, List.map_cons,
      List.map_nil, List.foldl_cons, List.foldl_nil, evalRev, List.length_cons]
    rw [ih acc (fun x hx => hlt x (List.mem_cons_of_mem d hx)), hchar]
    ring_nf
    omega

theorem decStrVal_natToDec (n : Nat) : decStrVal (natToDec n) = n := by
  by_cases h : n = 0
  · subst h; rfl
  · unfold natToDec decStrVal
    simp only [h, if_false]
    rw [decStrVal_aux (decDigitsRevF n n) 0 (fun d hd => decDigitsRevF_lt10 n n d hd)]
    rw [decDigitsRevF_eval n n (Nat.le_refl n)]
    omega

theorem natToDec_inj {a b : Nat} (h : natToDec a = natToDec b) : a = b := by
  have ha := decStrVal_natToDec a
  rw [h, decStrVal_natToDec] at ha
  omega

/-! Helper lemmas: every SHA-256 digest is 32 bytes, each below 256, so
digests — and the signatures built from them — inhabit a finite space. -/

theorem be32_mem_lt (n b : Nat) (hb : b ∈ be32 n) : b < 256 := by
  simp only [be32, List.mem_cons, List.not_mem_nil, or_false] at hb
  rcases hb with h | h | h | h <;> omega

theorem digestBytes_mem_lt (hv : Hash8) (b : Nat) (hb : b ∈ digestBytes hv) :
    b < 256 := by
  simp only [digestBytes, List.mem_append] at hb
  rcases hb with ((((((h | h) | h) | h) | h) | h) | h) | h <;> exact be32_mem_lt _ _ h

theorem sha256_mem_lt (msg : List Nat) (b : Nat) (hb : b ∈ sha256 msg) : b < 256 :=
  digestBytes_mem_lt _ _ hb

theorem sha256_length (msg : List Nat) : (sha256 msg).length = 32 := by
  simp [sha256, digestBytes, be32]

theorem hmacSha256_mem_lt (key msg : List Nat) (b : Nat)
    (hb : b ∈ hmacSha256 key msg) : b < 256 := sha256_mem_lt _ _ hb

theorem hmacSha256_length (key msg : List Nat) : (hmacSha256 key msg).length = 32 :=
  sha256_length _

/-- C1: on apiKey "k", apiSecret "s", nowMillis 1700000000000, query
"symbol=BTCUSDT" and empty body, computeSignHeaders returns expires
"1700000000000", the API key "k" verbatim, content type application/json,
and a sign header equal to the lowercase-hex HMAC-SHA256 of the query
keyed by the UTF-8 text of the lowercase-hex HMAC-SHA256 of the bucket
string floor(1700000000000/30000) = "56666666" keyed by "s". -/
theorem claim_C1 :
    computeSignHeaders "k" "s" 1700000000000 "GET" "symbol=BTCUSDT" "" =
      Except.ok ⟨"k", "1700000000000",
        bytesToHex (hmacSha256
          (strBytes (bytesToHex (hmacSha256 (strBytes "s")
            (strBytes (natToDec (1700000000000 / 30000))))))
          (strBytes "symbol=BTCUSDT")),
        "application/json"⟩ ∧
    natToDec (1700000000000 / 30000) = "56666666" ∧
    signOf "s" 1700000000000 "symbol=BTCUSDT" "" =
      "31d9b6ff037830390264d7a2e5f4d73533ff329e062f6dea6285bfcb9eba02f3" :=
  ⟨by decide, by decide, by decide⟩

/-- C2: whenever computeSignHeaders succeeds with a non-empty secret, its
sign header is the two-round scheme: the hex HMAC-SHA256 of the payload
keyed by the UTF-8 bytes of the hex text of the HMAC-SHA256, keyed by the
secret, of the decimal bucket string floor(nowMillis/30000). -/
theorem claim_C2 (k s : String) (n : Nat) (method q b : String)
    (hs : s ≠ "") (h : SignHeaders)
    (hok : computeSignHeaders k s n method q b = Except.ok h) :
    h.sign = bytesToHex (hmacSha256
      (strBytes (bytesToHex (hmacSha256 (strBytes s)
        (strBytes (natToDec (n / 30000))))))
      (strBytes (q ++ b))) := by
  unfold computeSignHeaders at hok
  split at hok
  · exact Except.noConfusion hok
  · cases hok
    rfl

/-- Witness for C2 at a concrete input. -/
theorem claim_C2_witness :
    (⟨"k", natToDec 3, signOf "s" 3 "a" "", "application/json"⟩ : SignHeaders).sign =
      bytesToHex (hmacSha256
        (strBytes (bytesToHex (hmacSha256 (strBytes "s")
          (strBytes (natToDec (3 / 30000))))))
        (strBytes ("a" ++ ""))) :=
  claim_C2 "k" "s" 3 "GET" "a" "" (by decide) _ rfl

/-- C3: the message signed by the final HMAC is the character-for-character
concatenation of query string and body, with no separator; when both are
empty it is the empty string. Stated for both signer implementations. -/
theorem claim_C3 (q b : String) :
    (payloadOf q b).data = q.data ++ b.data ∧
    payloadOf "" "" = "" ∧
    (∀ (k s : String) (n : Nat) (method : String) (h : SignHeaders),
      computeSignHeaders k s n method q b = Except.ok h →
      h.sign = bytesToHex (hmacSha256 (strBytes (derivedKeyOf s n))
        (strBytes (payloadOf q b)))) ∧
    (∀ (k s : String) (n : Nat),
      (createSignedHeaders k s n q b).sign =
        bytesToHex (hmacSha256 (strBytes (derivedKeyOf s n))
          (strBytes (payloadOf q b)))) := by
  refine ⟨String.data_append q b, rfl, ?_, fun k s n => rfl⟩
  intro k s n method h hok
  unfold computeSignHeaders at hok
  split at hok
  · exact Except.noConfusion hok
  · cases hok
    rfl

/-- Witness for C3 at a concrete input. -/
theorem claim_C3_witness :
    (⟨"k", natToDec 0, signOf "s" 0 "x" "y", "application/json"⟩ : SignHeaders).sign =
      bytesToHex (hmacSha256 (strBytes (derivedKeyOf "s" 0))
        (strBytes (payloadOf "x" "y"))) :=
  (claim_C3 "x" "y").2.2.1 "k" "s" 0 "GET" _ rfl

/-- C4: computeSignHeaders errors exactly when the API key or secret is
the empty string, and with both non-empty it returns the complete header
set of all four fields; every call returns either that error or that
complete set, never a partial result. -/
theorem claim_C4 (k s : String) (n : Nat) (method q b : String) :
    (computeSignHeaders k s n method q b =
        Except.error "Missing CS_API_KEY/CS_API_SECRET" ↔ k = "" ∨ s = "") ∧
    (k ≠ "" → s ≠ "" → computeSignHeaders k s n method q b =
        Except.ok ⟨k, natToDec n, signOf s n q b, "application/json"⟩) ∧
    (computeSignHeaders k s n method q b =
        Except.error "Missing CS_API_KEY/CS_API_SECRET" ∨
     computeSignHeaders k s n method q b =
        Except.ok ⟨k, natToDec n, signOf s n q b, "application/json"⟩) := by
  unfold computeSignHeaders
  by_cases hc : k = "" ∨ s = ""
  · rw [if_pos hc]
    exact ⟨⟨fun _ => hc, fun _ => rfl⟩,
      fun hk hs => absurd hc (by simp [hk, hs]), Or.inl rfl⟩
  · rw [if_neg hc]
    exact ⟨⟨fun he => Except.noConfusion he, fun h => absurd h hc⟩,
      fun _ _ => rfl, Or.inr rfl⟩

/-- Witness for C4 at a concrete input. -/
theorem claim_C4_witness :
    computeSignHeaders "k" "s" 7 "GET" "q" "b" =
      Except.ok ⟨"k", natToDec 7, signOf "s" 7 "q" "b", "application/json"⟩ :=
  (claim_C4 "k" "s" 7 "GET" "q" "b").2.1 (by decide) (by decide)

/-- C5: the signer is deterministic — any two invocations on the same
credentials, request and timestamp return the same result; the embedding
is a pure function of exactly these inputs. -/
theorem claim_C5 (k s : String) (n : Nat) (method q b : String)
    (r1 r2 : Except String SignHeaders)
    (h1 : r1 = computeSignHeaders k s n method q b)
    (h2 : r2 = computeSignHeaders k s n method q b) : r1 = r2 :=
  h1.trans h2.symm

/-- Witness for C5 at a concrete input. -/
theorem claim_C5_witness :
    computeSignHeaders "k" "s" 0 "GET" "" "" =
      computeSignHeaders "k" "s" 0 "GET" "" "" :=
  claim_C5 "k" "s" 0 "GET" "" "" _ _ rfl rfl

/-- C6: when two timestamps fall in the same 30000 ms bucket the derived
keys and the sign headers agree, and whenever the timestamps themselves
differ the expires headers differ (the signature depends on the timestamp
only through the bucket, since expires does not feed the payload). -/
theorem claim_C6 (k s method q b : String) (n1 n2 : Nat)
    (hb : n1 / 30000 = n2 / 30000) :
    derivedKeyOf s n1 = derivedKeyOf s n2 ∧
    signOf s n1 q b = signOf s n2 q b ∧
    (∀ h1 h2 : SignHeaders,
      computeSignHeaders k s n1 method q b = Except.ok h1 →
      computeSignHeaders k s n2 method q b = Except.ok h2 →
      h1.sign = h2.sign ∧ (n1 ≠ n2 → h1.expires ≠ h2.expires)) := by
  have hkey : derivedKeyOf s n1 = derivedKeyOf s n2 := by
    unfold derivedKeyOf timeBucketOf
    rw [hb]
  have hsig : signOf s n1 q b = signOf s n2 q b := by
    unfold signOf
    rw [hkey]
  refine ⟨hkey, hsig, ?_⟩
  intro h1 h2 e1 e2
  unfold computeSignHeaders at e1 e2
  split at e1
  · exact Except.noConfusion e1
  · split at e2
    · exact Except.noConfusion e2
    · cases e1
      cases e2
      exact ⟨hsig, fun hne hc => hne (natToDec_inj hc)⟩

/-- Witness for C6 at a concrete input: timestamps 1 and 2 share bucket 0,
give equal derived keys and sign headers, and distinct expires headers. -/
theorem claim_C6_witness :
    derivedKeyOf "s" 1 = derivedKeyOf "s" 2 ∧
    (⟨"k", natToDec 1, signOf "s" 1 "q" "b", "application/json"⟩ : SignHeaders).sign =
      (⟨"k", natToDec 2, signOf "s" 2 "q" "b", "application/json"⟩ : SignHeaders).sign ∧
    (⟨"k", natToDec 1, signOf "s" 1 "q" "b", "application/json"⟩ : SignHeaders).expires ≠
      (⟨"k", natToDec 2, signOf "s" 2 "q" "b", "application/json"⟩ : SignHeaders).expires :=
  ⟨(claim_C6 "k" "s" "GET" "q" "b" 1 2 rfl).1,
   ((claim_C6 "k" "s" "GET" "q" "b" 1 2 rfl).2.2 _ _ rfl rfl).1,
   ((claim_C6 "k" "s" "GET" "q" "b" 1 2 rfl).2.2 _ _ rfl rfl).2 (by decide)⟩

/-- C8: getBalances in src/src/index.ts signs with the empty-string body
while getBalances in src/js/lasttrade.js signs with the two-character
body from JSON.stringify of the empty object, so for the same credentials
and timestamp and empty query string the two operations sign different
payloads: the empty string versus the open-brace close-brace pair. -/
theorem claim_C8 (k s : String) (n : Nat) :
    getBalancesSignIndex k s n = computeSignHeaders k s n "GET" "" "" ∧
    getBalancesSignLasttrade k s n =
      createSignedHeaders k s n "" getBalancesBodyLasttrade ∧
    getBalancesBodyLasttrade = "\x7b\x7d" ∧
    payloadOf "" "" = "" ∧
    payloadOf "" getBalancesBodyLasttrade = "\x7b\x7d" ∧
    payloadOf "" "" ≠ payloadOf "" getBalancesBodyLasttrade ∧
    strBytes (payloadOf "" getBalancesBodyLasttrade) = [123, 125] ∧
    (getBalancesSignLasttrade k s n).sign =
      bytesToHex (hmacSha256 (strBytes (derivedKeyOf s n)) [123, 125]) := by
  refine ⟨rfl, rfl, rfl, rfl, by decide, by decide, by decide, ?_⟩
  have hbytes : strBytes (payloadOf "" getBalancesBodyLasttrade) = [123, 125] := by
    decide
  show signOf s n "" getBalancesBodyLasttrade = _
  unfold signOf
  rw [hbytes]

/-- C9: the method parameter has no influence on the output of
computeSignHeaders — two calls differing only in the method string return
identical results. -/
theorem claim_C9 (k s : String) (n : Nat) (m1 m2 q b : String) :
    computeSignHeaders k s n m1 q b = computeSignHeaders k s n m2 q b := rfl

/-- C10: on non-empty credentials the two signer implementations agree —
computeSignHeaders returns exactly the header set createSignedHeaders
builds — while createSignedHeaders, lacking the guard, returns the full
header set for every input including empty credentials. -/
theorem claim_C10 (k s : String) (n : Nat) (method q b : String) :
    (k ≠ "" → s ≠ "" → computeSignHeaders k s n method q b =
        Except.ok (createSignedHeaders k s n q b)) ∧
    createSignedHeaders k s n q b =
      ⟨k, natToDec n, signOf s n q b, "application/json"⟩ := by
  refine ⟨?_, rfl⟩
  intro hk hs
  unfold computeSignHeaders
  rw [if_neg (by simp [hk, hs])]
  rfl

/-- Witness for C10 at a concrete input. -/
theorem claim_C10_witness :
    computeSignHeaders "k" "s" 11 "POST" "q" "" =
      Except.ok (createSignedHeaders "k" "s" 11 "q" "") :=
  (claim_C10 "k" "s" 11 "POST" "q" "").1 (by decide) (by decide)

/-- Validation of the SHA-256 embedding against the FIPS 180-4 test
vector for the three-byte message abc. -/
theorem sha256_fips_vector : sha256 [97, 98, 99] =
    [186, 120, 22, 191, 143, 1, 207, 234, 65, 65, 64, 222, 93, 174, 34, 35,
     176, 3, 97, 163, 150, 23, 122, 156, 180, 16, 255, 97, 242, 0, 21, 173] := by
  decide

/-- Validation of the HMAC-SHA256 embedding against RFC 4231 test case 2. -/
theorem hmacSha256_rfc_vector : bytesToHex (hmacSha256 (strBytes "Jefe")
    (strBytes "what do ya want for nothing?")) =
    "5bdcc146bf60754e6a042426089575c75a003f089d2739839dec58b964ec3843" := by decide

end CoinstoreMM
